import Mathlib

/-!
# Soaribox NMEA driver

A shallow embedding of `src/Device/Driver/Soaribox.cpp`: the dispatcher
`SoariboxDevice::ParseNMEA` and the decoders `PZAN2` .. `PZAN5`, over a model
of the field cursor, the unit conversion and the sinks they call.

Text is `List Char`; values of the C++ type `double` are exact rationals
(rounding is not modelled); `int` is `Int` (no overflow is modelled).
-/

namespace Soaribox

/-- Values of the C++ type `double`, taken as exact rationals. -/
abbrev Double := ℚ

/-! ## Number syntax -/

/-- Modelled from the spec: the numeric grammar of the cursor's typed reads is
not part of the driver file; the spec only says the field parses as a number.
Value of a run of decimal digits. -/
def digitsValue (cs : List Char) : Nat :=
  cs.foldl (fun acc c => 10 * acc + (c.toNat - 48)) 0

/-- Modelled from the spec: the numeric grammar is not part of the driver
file. A non-empty run of decimal digits. -/
def ParseUnsigned (cs : List Char) : Option Nat :=
  if cs ≠ [] ∧ cs.all Char.isDigit = true then some (digitsValue cs) else none

/-- Modelled from the spec: the numeric grammar is not part of the driver
file. An integer is an optional sign followed by decimal digits; anything else
(the empty text included) does not parse. -/
def ParseInteger (cs : List Char) : Option Int :=
  match cs with
  | [] => none
  | c :: rest =>
    if c = '-' then (ParseUnsigned rest).map (fun n => -(n : Int))
    else if c = '+' then (ParseUnsigned rest).map (fun n => (n : Int))
    else (ParseUnsigned (c :: rest)).map (fun n => (n : Int))

/-- Modelled from the spec: the numeric grammar is not part of the driver
file. Unsigned decimal number with an optional fraction part, at least one
digit in all. -/
def ParseFraction (cs : List Char) : Option Double :=
  let ip := cs.takeWhile (fun c => c ≠ '.')
  let fp := (cs.dropWhile (fun c => c ≠ '.')).tail
  if (ip ≠ [] ∨ fp ≠ []) ∧ ip.all Char.isDigit = true ∧ fp.all Char.isDigit = true then
    some ((digitsValue ip : ℚ) + (digitsValue fp : ℚ) / (10 : ℚ) ^ fp.length)
  else none

/-- Modelled from the spec: the numeric grammar is not part of the driver
file. A floating-point field is an optional sign followed by a decimal number;
anything else (the empty text included) does not parse. -/
def ParseDouble (cs : List Char) : Option Double :=
  match cs with
  | [] => none
  | c :: rest =>
    if c = '-' then (ParseFraction rest).map (fun q => -q)
    else if c = '+' then ParseFraction rest
    else ParseFraction (c :: rest)

/-! ## Field cursor -/

/-- Modelled from the spec: `NMEAInputLine` is declared in NMEA/InputLine.hpp,
outside the driver file. A cursor over one sentence: `data` is the text not yet
consumed, which stops before the checksum marker. -/
structure NMEAInputLine where
  data : List Char
deriving DecidableEq, Repr

namespace NMEAInputLine

/-- Modelled from the spec: constructor of the cursor (not in the driver
file). The fields of a sentence lie before the checksum marker `*`. -/
def ofLine (s : List Char) : NMEAInputLine :=
  ⟨s.takeWhile (fun c => c ≠ '*')⟩

/-- Modelled from the spec: `ReadView` (ReadToken) is not in the driver file.
Returns the next comma-delimited field as raw text, or the empty text if the
stream is exhausted, and advances by exactly one field. -/
def ReadView (line : NMEAInputLine) : List Char × NMEAInputLine :=
  (line.data.takeWhile (fun c => c ≠ ','),
   ⟨(line.data.dropWhile (fun c => c ≠ ',')).tail⟩)

/-- Modelled from the spec: `Skip(n)` is not in the driver file. Discards the
next `n` fields without inspection; a no-op past the end of the stream. -/
def Skip (line : NMEAInputLine) : Nat → NMEAInputLine
  | 0 => line
  | n + 1 => Skip (line.ReadView).2 n

/-- Modelled from the spec: `ReadFirstChar` is not in the driver file. The
first character of the next field, or `none` (the missing sentinel) if the
field is absent or empty; advances by one field. -/
def ReadFirstChar (line : NMEAInputLine) : Option Char × NMEAInputLine :=
  ((line.ReadView).1.head?, (line.ReadView).2)

/-- Modelled from the spec: `ReadChecked(int &)` is not in the driver file.
Parses the next field as an integer; absent when the field is empty, exhausted
or not a number; advances by one field in every case. -/
def ReadCheckedInt (line : NMEAInputLine) : Option Int × NMEAInputLine :=
  (ParseInteger (line.ReadView).1, (line.ReadView).2)

/-- Modelled from the spec: `ReadChecked(double &)` is not in the driver file.
Parses the next field as a floating-point number; absent when the field is
empty, exhausted or not a number; advances by one field in every case. -/
def ReadCheckedDouble (line : NMEAInputLine) : Option Double × NMEAInputLine :=
  (ParseDouble (line.ReadView).1, (line.ReadView).2)

/-- Modelled from the spec: `Rest` (ReadRest) is not in the driver file. All
remaining unconsumed text of the sentence, verbatim. -/
def Rest (line : NMEAInputLine) : List Char :=
  line.data

end NMEAInputLine

/-! ## Units and the sinks -/

/-- The one unit the driver names (`Unit::KILOMETER_PER_HOUR`). -/
inductive Unit where
  | KILOMETER_PER_HOUR
deriving DecidableEq, Repr

namespace Units

/-- Modelled from the spec: `Units::ToSysUnit` is declared in Units/System.hpp,
outside the driver file. Converts a speed in km/h to the internal speed unit,
metres per second: a division by 3.6. -/
def ToSysUnit (value : Double) (unit : Unit) : Double :=
  match unit with
  | Unit.KILOMETER_PER_HOUR => value / (36 / 10)

end Units

/-- An angle; `Angle::Degrees` builds one from a value in degrees. -/
structure Angle where
  degrees : Double
deriving DecidableEq, Repr

/-- Constructor `Angle::Degrees`. -/
def Angle.Degrees (value : Int) : Angle :=
  ⟨(value : ℚ)⟩

/-- Constructor arguments of `SpeedVector(bearing, norm)`. -/
structure SpeedVector where
  bearing : Angle
  norm : Double
deriving DecidableEq, Repr

/-- The enum `SwitchState::FlightMode`. -/
inductive SwitchState.FlightMode where
  | UNKNOWN
  | CIRCLING
  | CRUISE
deriving DecidableEq, Repr

/-- The part of `SwitchState` the driver writes. -/
structure SwitchState where
  flight_mode : SwitchState.FlightMode
deriving DecidableEq, Repr

/-- One update received by the flight state through a `Provide...` method. -/
inductive Provided where
  | TrueAirspeed (value : Double)
  | TotalEnergyVario (value : Double)
  | ExternalWind (value : SpeedVector)
deriving DecidableEq, Repr

/-- Modelled from the spec: `ExternalSettings` is declared outside the driver
file. The settings sink keeps the MacCready values it was given, each paired
with the time stamp passed along, oldest first. -/
structure ExternalSettings where
  mac_cready : List (Double × Double)
deriving DecidableEq, Repr

/-- Modelled from the spec: `ProvideMacCready` is not in the driver file; the
settings sink accepts a reference value and a time stamp. -/
def ExternalSettings.ProvideMacCready (settings : ExternalSettings) (value : Double)
    (time : Double) : ExternalSettings :=
  ⟨settings.mac_cready ++ [(value, time)]⟩

/-- Modelled from the spec: `NMEAInfo` is declared in NMEA/Info.hpp, outside
the driver file. The flight state as the driver sees it: its clock, the switch
state, the settings sink, and the typed updates it received, oldest first. -/
structure NMEAInfo where
  clock : Double
  switch_state : SwitchState
  settings : ExternalSettings
  provided : List Provided
deriving DecidableEq, Repr

namespace NMEAInfo

/-- Modelled from the spec: the state sink accepts a true-airspeed update. -/
def ProvideTrueAirspeed (info : NMEAInfo) (value : Double) : NMEAInfo :=
  { info with provided := info.provided ++ [Provided.TrueAirspeed value] }

/-- Modelled from the spec: the state sink accepts a total-energy-vario update. -/
def ProvideTotalEnergyVario (info : NMEAInfo) (value : Double) : NMEAInfo :=
  { info with provided := info.provided ++ [Provided.TotalEnergyVario value] }

/-- Modelled from the spec: the state sink accepts an external wind update. -/
def ProvideExternalWind (info : NMEAInfo) (value : SpeedVector) : NMEAInfo :=
  { info with provided := info.provided ++ [Provided.ExternalWind value] }

end NMEAInfo

/-- Modelled from the spec: `StaticString<256>::SetASCII` is declared outside
the driver file. The buffer has 256 slots, one of them for the terminator; the
text is truncated to that maximum length, and only ASCII characters are
stored. -/
def SetASCII (capacity : Nat) (src : List Char) : List Char :=
  (src.filter (fun c => c.toNat < 128)).take (capacity - 1)

/-- The flight state together with the notification sink (`Message::AddMessage`
appends one text to the queue). -/
structure World where
  info : NMEAInfo
  messages : List (List Char)
deriving DecidableEq, Repr

/-- Modelled from the spec: `Message::AddMessage` is declared in Message.hpp;
the notification sink accepts one text. -/
def World.AddMessage (w : World) (text : List Char) : World :=
  { w with messages := w.messages ++ [text] }

/-! ## The decoders (Soaribox.cpp) -/

/-- Decoder `PZAN2` (Soaribox.cpp, lines 23-35). -/
def PZAN2 (line : NMEAInputLine) (info : NMEAInfo) : Bool × NMEAInfo :=
  let r1 := line.ReadCheckedDouble
  let info1 :=
    match r1.1 with
    | some vtas => info.ProvideTrueAirspeed (Units.ToSysUnit vtas Unit.KILOMETER_PER_HOUR)
    | none => info
  let r2 := r1.2.ReadCheckedDouble
  let info2 :=
    match r2.1 with
    | some wnet => info1.ProvideTotalEnergyVario ((wnet - 10000) / 100)
    | none => info1
  (true, info2)

/-- Lines 49-59 of `PZAN3`: the validity flag after the dialect lookahead, or
`none` when the decoder returns early on `V,V`. -/
def PZAN3.okay (line : NMEAInputLine) : Option (Option Char) :=
  let r1 := line.ReadFirstChar
  if r1.1 = some 'V' then
    let r2 := r1.2.ReadFirstChar
    if r2.1 = some 'V' then none
    else if r2.1 ≠ some 'A' then some ((r2.2.Skip 1).ReadFirstChar).1
    else some r2.1
  else some r1.1

/-- Decoder `PZAN3` (Soaribox.cpp, lines 37-68). -/
def PZAN3 (line : NMEAInputLine) (info : NMEAInfo) : Bool × NMEAInfo :=
  let line0 := line.Skip 3
  let r1 := line0.ReadCheckedInt
  match r1.1 with
  | none => (false, info)
  | some direction =>
    let r2 := r1.2.ReadCheckedInt
    match r2.1 with
    | none => (false, info)
    | some speed =>
      match PZAN3.okay r2.2 with
      | none => (true, info)
      | some okay =>
        if okay = some 'A' then
          (true, info.ProvideExternalWind
            ⟨Angle.Degrees direction, Units.ToSysUnit (speed : ℚ) Unit.KILOMETER_PER_HOUR⟩)
        else (true, info)

/-- Decoder `PZAN4` (Soaribox.cpp, lines 70-80). -/
def PZAN4 (line : NMEAInputLine) (info : NMEAInfo) : Bool × NMEAInfo :=
  match (line.ReadCheckedDouble).1 with
  | some mc => (true, { info with settings := info.settings.ProvideMacCready mc info.clock })
  | none => (true, info)

/-- Decoder `PZAN5` (Soaribox.cpp, lines 82-97). -/
def PZAN5 (line : NMEAInputLine) (info : NMEAInfo) : Bool × NMEAInfo :=
  let state := (line.ReadView).1
  if state = ['S', 'F'] then
    (true, { info with switch_state := { info.switch_state with
      flight_mode := SwitchState.FlightMode.CRUISE } })
  else if state = ['V', 'A'] then
    (true, { info with switch_state := { info.switch_state with
      flight_mode := SwitchState.FlightMode.CIRCLING } })
  else
    (true, { info with switch_state := { info.switch_state with
      flight_mode := SwitchState.FlightMode.UNKNOWN } })

/-- Runs a decoder on the flight state of a world; the notification sink is
out of the decoder's reach. -/
def World.decode (w : World) (r : Bool × NMEAInfo) : Bool × World :=
  (r.1, { w with info := r.2 })

/-- The dispatcher `SoariboxDevice::ParseNMEA` (Soaribox.cpp, lines 99-132).
`VerifyNMEAChecksum` is the external checksum validator, taken as given. -/
def ParseNMEA (VerifyNMEAChecksum : List Char → Bool) (s : List Char) (w : World) :
    Bool × World :=
  if VerifyNMEAChecksum s = false then (false, w)
  else
    let r := (NMEAInputLine.ofLine s).ReadView
    let type := r.1
    let line := r.2
    if type = "$SOARIM".toList then
      let message := line.Rest
      let buffer := SetASCII 256 message
      (true, w.AddMessage buffer)
    else if type = "$PZAN2".toList then w.decode (PZAN2 line w.info)
    else if type = "$PZAN3".toList then w.decode (PZAN3 line w.info)
    else if type = "$PZAN4".toList then w.decode (PZAN4 line w.info)
    else if type = "$PZAN5".toList then w.decode (PZAN5 line w.info)
    else (false, w)

/-! ## Vocabulary of the statements -/

/-- The comma-delimited fields of a text, in order. -/
def splitFields : List Char → List (List Char)
  | [] => [[]]
  | c :: cs =>
    if c = ',' then [] :: splitFields cs
    else
      match splitFields cs with
      | [] => [[c]]
      | f :: fs => (c :: f) :: fs

/-- The text of a sentence before its checksum marker. -/
def payload (s : List Char) : List Char :=
  s.takeWhile (fun c => c ≠ '*')

/-- The fields of a sentence; field 0 is the type token. -/
def fields (s : List Char) : List (List Char) :=
  splitFields (payload s)

/-- The `n`-th field of a sentence (field 0 is the type token, field `n` the
`n`-th field after it), the empty text when the sentence has no such field. -/
def field (s : List Char) (n : Nat) : List Char :=
  (fields s).getD n []

/-- The cursor of a sentence after `n` fields have been consumed. -/
def cursor (s : List Char) (n : Nat) : NMEAInputLine :=
  (NMEAInputLine.ofLine s).Skip n

/-- The type tokens the dispatcher compares with. -/
def knownTypes : List (List Char) :=
  ["$SOARIM".toList, "$PZAN2".toList, "$PZAN3".toList, "$PZAN4".toList, "$PZAN5".toList]

/-- The world after the flight state received the updates `us`, in order. -/
def World.provide (w : World) (us : List Provided) : World :=
  { w with info := { w.info with provided := w.info.provided ++ us } }

/-- The external-wind update built from a direction in degrees and a speed in
km/h. -/
def windUpdate (direction speed : Int) : Provided :=
  Provided.ExternalWind
    ⟨Angle.Degrees direction, Units.ToSysUnit (speed : ℚ) Unit.KILOMETER_PER_HOUR⟩

/-- The validity flag of a wind sentence as the lookahead resolves it from the
first characters `c6`, `c7`, `c9` of fields 6, 7 and 9; `none` is the early
exit on `V,V`. -/
def resolvedFlag (c6 c7 c9 : Option Char) : Option (Option Char) :=
  if c6 = some 'V' then
    if c7 = some 'V' then none
    else if c7 = some 'A' then some c7
    else some c9
  else some c6

/-- A world with something in every sink already, for the concrete runs. -/
def sampleWorld : World :=
  ⟨⟨12, ⟨SwitchState.FlightMode.CRUISE⟩, ⟨[(1, 3)]⟩, [Provided.TrueAirspeed 30]⟩,
   [['h', 'i']]⟩

/-- What one call hands to the sinks: the typed updates, the MacCready values with
their time stamps, the flight mode written (if any) and the messages, each in the
order of the calls. -/
structure Effect where
  provided : List Provided
  mac_cready : List (Double × Double)
  flight_mode : Option SwitchState.FlightMode
  messages : List (List Char)
deriving DecidableEq, Repr

/-- The world after the sinks received the calls of an effect. -/
def World.apply (w : World) (e : Effect) : World :=
  ⟨{ w.info with
      switch_state := { w.info.switch_state with
        flight_mode := e.flight_mode.getD w.info.switch_state.flight_mode },
      settings := ⟨w.info.settings.mac_cready ++ e.mac_cready⟩,
      provided := w.info.provided ++ e.provided },
    w.messages ++ e.messages⟩

/-- The typed updates the flight state of `after` holds beyond those of `before`. -/
def newUpdates (before after : World) : List Provided :=
  after.info.provided.drop before.info.provided.length

/-- Recognises a total-energy-vario update. -/
def Provided.isVario : Provided → Bool
  | Provided.TotalEnergyVario _ => true
  | _ => false

/-! ## The cursor reads the fields in order -/

theorem splitFields_eq (t : List Char) :
    splitFields t = t.takeWhile (fun c => c ≠ ',') ::
      (match t.dropWhile (fun c => c ≠ ',') with
       | [] => []
       | _ :: r => splitFields r) := by
  induction t with
  | nil => simp [splitFields]
  | cons c cs ih =>
    by_cases hc : c = ','
    · subst hc
      simp [splitFields]
    · simp only [splitFields, hc, if_false]
      rw [ih]
      simp [hc]

theorem getD_splitFields_tail (t : List Char) (n : Nat) :
    (splitFields t).getD (n + 1) [] =
      (splitFields (t.dropWhile (fun c => c ≠ ',')).tail).getD n [] := by
  rw [splitFields_eq t]
  cases h : t.dropWhile (fun c => c ≠ ',') with
  | nil => cases n <;> simp [splitFields]
  | cons a r => simp

theorem Skip_succ (line : NMEAInputLine) (n : Nat) :
    line.Skip (n + 1) = ((line.Skip n).ReadView).2 := by
  induction n generalizing line with
  | zero => rfl
  | succ k ih =>
    show NMEAInputLine.Skip (line.ReadView).2 (k + 1) = _
    rw [ih]
    rfl

theorem Skip_add (line : NMEAInputLine) (a b : Nat) :
    (line.Skip a).Skip b = line.Skip (a + b) := by
  induction b with
  | zero => rfl
  | succ k ih => rw [Skip_succ, ih, ← Nat.add_assoc, Skip_succ]

theorem ReadView_Skip (t : List Char) (n : Nat) :
    (((⟨t⟩ : NMEAInputLine).Skip n).ReadView).1 = (splitFields t).getD n [] := by
  induction n generalizing t with
  | zero =>
    rw [splitFields_eq t]
    rfl
  | succ k ih =>
    rw [getD_splitFields_tail]
    exact ih _

theorem ReadView_cursor (s : List Char) (n : Nat) :
    (cursor s n).ReadView = (field s n, cursor s (n + 1)) := by
  apply Prod.ext
  · exact ReadView_Skip _ n
  · exact (Skip_succ _ n).symm

theorem Skip_cursor (s : List Char) (n k : Nat) :
    (cursor s n).Skip k = cursor s (n + k) :=
  Skip_add _ n k

theorem ReadFirstChar_cursor (s : List Char) (n : Nat) :
    (cursor s n).ReadFirstChar = ((field s n).head?, cursor s (n + 1)) := by
  simp [NMEAInputLine.ReadFirstChar, ReadView_cursor]

theorem ReadCheckedInt_cursor (s : List Char) (n : Nat) :
    (cursor s n).ReadCheckedInt = (ParseInteger (field s n), cursor s (n + 1)) := by
  simp [NMEAInputLine.ReadCheckedInt, ReadView_cursor]

theorem ReadCheckedDouble_cursor (s : List Char) (n : Nat) :
    (cursor s n).ReadCheckedDouble = (ParseDouble (field s n), cursor s (n + 1)) := by
  simp [NMEAInputLine.ReadCheckedDouble, ReadView_cursor]

theorem ParseNMEA_invalid (verify : List Char → Bool) (s : List Char) (w : World)
    (hv : verify s = false) : ParseNMEA verify s w = (false, w) := by
  simp [ParseNMEA, hv]

theorem ParseNMEA_valid (verify : List Char → Bool) (s : List Char) (w : World)
    (hv : verify s = true) :
    ParseNMEA verify s w =
      if field s 0 = "$SOARIM".toList then
        (true, w.AddMessage (SetASCII 256 (cursor s 1).Rest))
      else if field s 0 = "$PZAN2".toList then w.decode (PZAN2 (cursor s 1) w.info)
      else if field s 0 = "$PZAN3".toList then w.decode (PZAN3 (cursor s 1) w.info)
      else if field s 0 = "$PZAN4".toList then w.decode (PZAN4 (cursor s 1) w.info)
      else if field s 0 = "$PZAN5".toList then w.decode (PZAN5 (cursor s 1) w.info)
      else (false, w) := by
  have h : (NMEAInputLine.ofLine s).ReadView = (field s 0, cursor s 1) := ReadView_cursor s 0
  unfold ParseNMEA
  rw [if_neg (by simp [hv]), h]

theorem PZAN2_cursor (s : List Char) (info : NMEAInfo) :
    PZAN2 (cursor s 1) info =
      (true, { info with provided := info.provided ++
        ((ParseDouble (field s 1)).map (fun vtas =>
          Provided.TrueAirspeed (Units.ToSysUnit vtas Unit.KILOMETER_PER_HOUR))).toList ++
        ((ParseDouble (field s 2)).map (fun wnet =>
          Provided.TotalEnergyVario ((wnet - 10000) / 100))).toList }) := by
  simp only [PZAN2, ReadCheckedDouble_cursor]
  cases ParseDouble (field s 1) <;> cases ParseDouble (field s 2) <;>
    simp [NMEAInfo.ProvideTrueAirspeed, NMEAInfo.ProvideTotalEnergyVario]

theorem PZAN3_okay_cursor (s : List Char) :
    PZAN3.okay (cursor s 6) =
      resolvedFlag (field s 6).head? (field s 7).head? (field s 9).head? := by
  simp only [PZAN3.okay, ReadFirstChar_cursor, Skip_cursor, resolvedFlag]
  split
  · split
    · rfl
    · split <;> simp_all
  · rfl

theorem PZAN3_cursor (s : List Char) (info : NMEAInfo) :
    PZAN3 (cursor s 1) info =
      match ParseInteger (field s 4), ParseInteger (field s 5) with
      | some direction, some speed =>
        if resolvedFlag (field s 6).head? (field s 7).head? (field s 9).head?
            = some (some 'A') then
          (true, info.ProvideExternalWind
            ⟨Angle.Degrees direction, Units.ToSysUnit (speed : ℚ) Unit.KILOMETER_PER_HOUR⟩)
        else (true, info)
      | _, _ => (false, info) := by
  simp only [PZAN3, Skip_cursor, ReadCheckedInt_cursor, PZAN3_okay_cursor]
  cases ParseInteger (field s 4) with
  | none => rfl
  | some d =>
    cases ParseInteger (field s 5) with
    | none => rfl
    | some v =>
      simp only []
      rw [PZAN3_okay_cursor]
      cases h : resolvedFlag (field s 6).head? (field s 7).head? (field s 9).head? with
      | none => simp
      | some okay =>
        by_cases hA : okay = some 'A'
        · simp [hA]
        · simp [hA]

theorem PZAN4_fst (line : NMEAInputLine) (info : NMEAInfo) : (PZAN4 line info).1 = true := by
  unfold PZAN4
  split <;> rfl

theorem PZAN5_fst (line : NMEAInputLine) (info : NMEAInfo) : (PZAN5 line info).1 = true := by
  simp only [PZAN5]
  split_ifs <;> rfl

theorem PZAN3_fst (s : List Char) (info : NMEAInfo) :
    (PZAN3 (cursor s 1) info).1 = false ↔
      (ParseInteger (field s 4) = none ∨ ParseInteger (field s 5) = none) := by
  rw [PZAN3_cursor]
  cases ParseInteger (field s 4) with
  | none => simp
  | some d =>
    cases ParseInteger (field s 5) with
    | none => simp
    | some v =>
      simp only []
      split <;> simp

/-! ## The dispatcher, type by type -/

theorem ParseNMEA_SOARIM (verify : List Char → Bool) (s : List Char) (w : World)
    (hv : verify s = true) (ht : field s 0 = "$SOARIM".toList) :
    ParseNMEA verify s w = (true, w.AddMessage (SetASCII 256 (cursor s 1).Rest)) := by
  rw [ParseNMEA_valid verify s w hv, if_pos ht]

theorem ParseNMEA_PZAN2 (verify : List Char → Bool) (s : List Char) (w : World)
    (hv : verify s = true) (ht : field s 0 = "$PZAN2".toList) :
    ParseNMEA verify s w = w.decode (PZAN2 (cursor s 1) w.info) := by
  rw [ParseNMEA_valid verify s w hv, ht, if_neg (by decide), if_pos rfl]

theorem ParseNMEA_PZAN3 (verify : List Char → Bool) (s : List Char) (w : World)
    (hv : verify s = true) (ht : field s 0 = "$PZAN3".toList) :
    ParseNMEA verify s w = w.decode (PZAN3 (cursor s 1) w.info) := by
  rw [ParseNMEA_valid verify s w hv, ht, if_neg (by decide), if_neg (by decide), if_pos rfl]

theorem ParseNMEA_unknown (verify : List Char → Bool) (s : List Char) (w : World)
    (hv : verify s = true) (ht : field s 0 ∉ knownTypes) :
    ParseNMEA verify s w = (false, w) := by
  simp only [knownTypes, List.mem_cons, List.mem_singleton, List.not_mem_nil, or_false,
    not_or] at ht
  rw [ParseNMEA_valid verify s w hv, if_neg ht.1, if_neg ht.2.1, if_neg ht.2.2.1,
    if_neg ht.2.2.2.1, if_neg ht.2.2.2.2]

theorem provide_nil (w : World) : w.provide [] = w := by
  cases w with
  | mk info messages =>
    cases info
    simp [World.provide]

/-- The wind decoder behind the dispatcher, in terms of the fields of the sentence. -/
theorem ParseNMEA_wind (verify : List Char → Bool) (s : List Char) (w : World)
    (hv : verify s = true) (ht : field s 0 = "$PZAN3".toList) :
    ParseNMEA verify s w =
      match ParseInteger (field s 4), ParseInteger (field s 5) with
      | some direction, some speed =>
        if resolvedFlag (field s 6).head? (field s 7).head? (field s 9).head?
            = some (some 'A') then
          (true, w.provide [windUpdate direction speed])
        else (true, w)
      | _, _ => (false, w) := by
  rw [ParseNMEA_PZAN3 verify s w hv ht, PZAN3_cursor]
  cases ParseInteger (field s 4) with
  | none => rfl
  | some d =>
    cases ParseInteger (field s 5) with
    | none => rfl
    | some v =>
      simp only []
      split <;> rfl

theorem field_absent (s : List Char) (n : Nat) (h : (fields s).length ≤ n) : field s n = [] := by
  unfold field
  exact List.getD_eq_default _ _ h

theorem windUpdate_eq (direction speed : Int) :
    windUpdate direction speed =
      Provided.ExternalWind ⟨⟨(direction : ℚ)⟩, (speed : ℚ) / 3.6⟩ := by
  simp only [windUpdate, Angle.Degrees, Units.ToSysUnit]
  norm_num

theorem ToSysUnit_kmh (value : Double) :
    Units.ToSysUnit value Unit.KILOMETER_PER_HOUR = value / 3.6 := by
  simp only [Units.ToSysUnit]
  norm_num

theorem decode_PZAN2 (w : World) (s : List Char) :
    w.decode (PZAN2 (cursor s 1) w.info) =
      (true, w.provide
        (((ParseDouble (field s 1)).map (fun vtas =>
          Provided.TrueAirspeed (Units.ToSysUnit vtas Unit.KILOMETER_PER_HOUR))).toList ++
        ((ParseDouble (field s 2)).map (fun wnet =>
          Provided.TotalEnergyVario ((wnet - 10000) / 100))).toList)) := by
  rw [PZAN2_cursor]
  simp [World.decode, World.provide, List.append_assoc]

theorem SetASCII_of_ascii (text : List Char) (hascii : ∀ c ∈ text, c.toNat < 128)
    (hlen : text.length < 256) : SetASCII 256 text = text := by
  unfold SetASCII
  rw [List.filter_eq_self.mpr (by simpa using hascii)]
  exact List.take_of_length_le (by omega)

/-! ## The remaining decoders and the effect of a run -/

theorem ParseNMEA_PZAN4 (verify : List Char → Bool) (s : List Char) (w : World)
    (hv : verify s = true) (ht : field s 0 = "$PZAN4".toList) :
    ParseNMEA verify s w = w.decode (PZAN4 (cursor s 1) w.info) := by
  rw [ParseNMEA_valid verify s w hv, ht, if_neg (by decide), if_neg (by decide),
    if_neg (by decide), if_pos rfl]

theorem ParseNMEA_PZAN5 (verify : List Char → Bool) (s : List Char) (w : World)
    (hv : verify s = true) (ht : field s 0 = "$PZAN5".toList) :
    ParseNMEA verify s w = w.decode (PZAN5 (cursor s 1) w.info) := by
  rw [ParseNMEA_valid verify s w hv, ht, if_neg (by decide), if_neg (by decide),
    if_neg (by decide), if_neg (by decide), if_pos rfl]

theorem decode_PZAN4 (w : World) (s : List Char) :
    w.decode (PZAN4 (cursor s 1) w.info) =
      (true,
        match ParseDouble (field s 1) with
        | some mc =>
          ⟨{ w.info with
              settings := ⟨w.info.settings.mac_cready ++ [(mc, w.info.clock)]⟩ },
            w.messages⟩
        | none => w) := by
  simp only [PZAN4, ReadCheckedDouble_cursor]
  cases ParseDouble (field s 1) <;> rfl

theorem decode_PZAN5 (w : World) (s : List Char) :
    w.decode (PZAN5 (cursor s 1) w.info) =
      (true,
        ⟨{ w.info with
            switch_state := { w.info.switch_state with
              flight_mode :=
                if field s 1 = "SF".toList then SwitchState.FlightMode.CRUISE
                else if field s 1 = "VA".toList then SwitchState.FlightMode.CIRCLING
                else SwitchState.FlightMode.UNKNOWN } },
          w.messages⟩) := by
  simp only [PZAN5, ReadView_cursor]
  by_cases h1 : field s 1 = ['S', 'F']
  · have e1 : field s 1 = "SF".toList := h1
    rw [if_pos h1, if_pos e1]
    rfl
  · have e1 : ¬ field s 1 = "SF".toList := h1
    rw [if_neg h1, if_neg e1]
    by_cases h2 : field s 1 = ['V', 'A']
    · have e2 : field s 1 = "VA".toList := h2
      rw [if_pos h2, if_pos e2]
      rfl
    · have e2 : ¬ field s 1 = "VA".toList := h2
      rw [if_neg h2, if_neg e2]
      rfl

theorem provide_ne (w : World) (u : Provided) : w.provide [u] ≠ w := by
  intro h
  have h2 := congrArg (fun x => x.info.provided.length) h
  simp [World.provide] at h2

theorem apply_nothing (w : World) : w.apply ⟨[], [], none, []⟩ = w := by
  cases w with
  | mk info messages =>
    cases info
    simp [World.apply]

theorem apply_provided (w : World) (us : List Provided) :
    w.apply ⟨us, [], none, []⟩ = w.provide us := by
  cases w with
  | mk info messages =>
    cases info
    simp [World.apply, World.provide]

theorem apply_message (w : World) (text : List Char) :
    w.apply ⟨[], [], none, [text]⟩ = w.AddMessage text := by
  cases w with
  | mk info messages =>
    cases info
    simp [World.apply, World.AddMessage]

/-- Every run of the dispatcher is the application of an effect that is computed from
the validator, the sentence and the clock alone. -/
theorem ParseNMEA_effect (verify : List Char → Bool) (s : List Char) (clock : Double) :
    ∃ (handled : Bool) (e : Effect), ∀ w : World, w.info.clock = clock →
      ParseNMEA verify s w = (handled, w.apply e) := by
  cases hv : verify s with
  | false =>
    exact ⟨false, ⟨[], [], none, []⟩, fun w _ => by
      rw [ParseNMEA_invalid verify s w hv, apply_nothing]⟩
  | true =>
    by_cases h1 : field s 0 = "$SOARIM".toList
    · exact ⟨true, ⟨[], [], none, [SetASCII 256 (cursor s 1).Rest]⟩, fun w _ => by
        rw [ParseNMEA_SOARIM verify s w hv h1, apply_message]⟩
    by_cases h2 : field s 0 = "$PZAN2".toList
    · exact ⟨true, ⟨_, [], none, []⟩, fun w _ => by
        rw [ParseNMEA_PZAN2 verify s w hv h2, decode_PZAN2, apply_provided]⟩
    by_cases h3 : field s 0 = "$PZAN3".toList
    · cases h4 : ParseInteger (field s 4) with
      | none =>
        exact ⟨false, ⟨[], [], none, []⟩, fun w _ => by
          rw [ParseNMEA_wind verify s w hv h3, h4, apply_nothing]⟩
      | some d =>
        cases h5 : ParseInteger (field s 5) with
        | none =>
          exact ⟨false, ⟨[], [], none, []⟩, fun w _ => by
            rw [ParseNMEA_wind verify s w hv h3, h4, h5, apply_nothing]⟩
        | some v =>
          by_cases hf : resolvedFlag (field s 6).head? (field s 7).head? (field s 9).head?
              = some (some 'A')
          · exact ⟨true, ⟨[windUpdate d v], [], none, []⟩, fun w _ => by
              rw [ParseNMEA_wind verify s w hv h3, h4, h5, apply_provided]
              simp only []
              rw [if_pos hf]⟩
          · exact ⟨true, ⟨[], [], none, []⟩, fun w _ => by
              rw [ParseNMEA_wind verify s w hv h3, h4, h5, apply_nothing]
              simp only []
              rw [if_neg hf]⟩
    by_cases h4 : field s 0 = "$PZAN4".toList
    · cases hm : ParseDouble (field s 1) with
      | none =>
        exact ⟨true, ⟨[], [], none, []⟩, fun w _ => by
          rw [ParseNMEA_PZAN4 verify s w hv h4, decode_PZAN4, hm, apply_nothing]⟩
      | some mc =>
        exact ⟨true, ⟨[], [(mc, clock)], none, []⟩, fun w hc => by
          rw [ParseNMEA_PZAN4 verify s w hv h4, decode_PZAN4, hm, ← hc]
          cases w with
          | mk info messages =>
            cases info
            simp [World.apply]⟩
    by_cases h5 : field s 0 = "$PZAN5".toList
    · exact ⟨true, ⟨[], [], some
          (if field s 1 = "SF".toList then SwitchState.FlightMode.CRUISE
           else if field s 1 = "VA".toList then SwitchState.FlightMode.CIRCLING
           else SwitchState.FlightMode.UNKNOWN), []⟩, fun w _ => by
        rw [ParseNMEA_PZAN5 verify s w hv h5, decode_PZAN5]
        cases w with
        | mk info messages =>
          cases info
          simp [World.apply]⟩
    · exact ⟨false, ⟨[], [], none, []⟩, fun w _ => by
        rw [ParseNMEA_unknown verify s w hv (by
          simp only [knownTypes, List.mem_cons, List.mem_singleton, List.not_mem_nil,
            or_false, not_or]
          exact ⟨h1, h2, h3, h4, h5⟩), apply_nothing]⟩

theorem newUpdates_provide (w : World) (us : List Provided) :
    newUpdates w (w.provide us) = us := by
  simp [newUpdates, World.provide]

theorem vario_of_PZAN2 (verify : List Char → Bool) (s : List Char) (w : World)
    (hv : verify s = true) (ht : field s 0 = "$PZAN2".toList) :
    (newUpdates w (ParseNMEA verify s w).2).filter Provided.isVario =
      match ParseDouble (field s 2) with
      | some raw => [Provided.TotalEnergyVario ((raw - 10000) / 100)]
      | none => [] := by
  rw [ParseNMEA_PZAN2 verify s w hv ht, decode_PZAN2, newUpdates_provide]
  cases ParseDouble (field s 1) <;> cases ParseDouble (field s 2) <;>
    simp [Provided.isVario]

/-! ## The claims -/

/-- C1: ParseNMEA returns Rejected if and only if the checksum validator rejects the
line, or the type token is not one of the five known ones, or the type is $PZAN3 and
field 4 (direction) or field 5 (speed) does not parse as an integer (an absent field
reads as the empty text, which does not parse); otherwise it returns Handled. -/
theorem ParseNMEA_rejected_iff (verify : List Char → Bool) (s : List Char) (w : World) :
    ((ParseNMEA verify s w).1 = false ↔
      (verify s = false ∨ field s 0 ∉ knownTypes ∨
        (field s 0 = "$PZAN3".toList ∧
          (ParseInteger (field s 4) = none ∨ ParseInteger (field s 5) = none)))) ∧
    ((ParseNMEA verify s w).1 = true ↔
      ¬ (verify s = false ∨ field s 0 ∉ knownTypes ∨
        (field s 0 = "$PZAN3".toList ∧
          (ParseInteger (field s 4) = none ∨ ParseInteger (field s 5) = none)))) := by
  have key : (ParseNMEA verify s w).1 = false ↔
      (verify s = false ∨ field s 0 ∉ knownTypes ∨
        (field s 0 = "$PZAN3".toList ∧
          (ParseInteger (field s 4) = none ∨ ParseInteger (field s 5) = none))) := by
    cases hv : verify s with
    | false => simp [ParseNMEA_invalid verify s w hv]
    | true =>
      rw [ParseNMEA_valid verify s w hv]
      by_cases h1 : field s 0 = "$SOARIM".toList
      · simp [h1, knownTypes]
      by_cases h2 : field s 0 = "$PZAN2".toList
      · simp [h2, knownTypes, World.decode, PZAN2_cursor]
      by_cases h3 : field s 0 = "$PZAN3".toList
      · simp [h3, knownTypes, World.decode, PZAN3_fst]
      by_cases h4 : field s 0 = "$PZAN4".toList
      · simp [h4, knownTypes, World.decode, PZAN4_fst]
      by_cases h5 : field s 0 = "$PZAN5".toList
      · simp [h5, knownTypes, World.decode, PZAN5_fst]
      · rw [if_neg h1, if_neg h2, if_neg h3, if_neg h4, if_neg h5]
        simp only [knownTypes, List.mem_cons, List.mem_singleton, List.not_mem_nil, or_false,
          not_or, true_iff]
        right; left
        exact ⟨h1, h2, h3, h4, h5⟩
  refine ⟨key, ?_⟩
  rw [← key]
  cases (ParseNMEA verify s w).1 <;> simp

/-- C2: a line the checksum validator rejects is Rejected, and the world (flight
state and notification queue) is returned unchanged: no sink was called. -/
theorem ParseNMEA_bad_checksum (verify : List Char → Bool) (s : List Char) (w : World)
    (hv : verify s = false) : ParseNMEA verify s w = (false, w) :=
  ParseNMEA_invalid verify s w hv

theorem ParseNMEA_bad_checksum_witness :
    ParseNMEA (fun _ => false) "$PZAN2,100,10500*33".toList sampleWorld = (false, sampleWorld) :=
  ParseNMEA_bad_checksum (fun _ => false) "$PZAN2,100,10500*33".toList sampleWorld rfl

/-- C3: a line that passes the checksum but whose type token (field 0, the leading
`$` included) is none of the five known tokens is Rejected, and the world is
returned unchanged: no sink was called. -/
theorem ParseNMEA_unknown_type (verify : List Char → Bool) (s : List Char) (w : World)
    (hv : verify s = true) (ht : field s 0 ∉ knownTypes) :
    ParseNMEA verify s w = (false, w) :=
  ParseNMEA_unknown verify s w hv ht

theorem ParseNMEA_unknown_type_witness :
    ParseNMEA (fun _ => true) "$pzan2,100,10500*32".toList sampleWorld = (false, sampleWorld) ∧
    ParseNMEA (fun _ => true) "PZAN2,100,10500*32".toList sampleWorld = (false, sampleWorld) ∧
    ParseNMEA (fun _ => true) "$PZAN22,100,10500*00".toList sampleWorld = (false, sampleWorld) :=
  ⟨ParseNMEA_unknown_type (fun _ => true) "$pzan2,100,10500*32".toList sampleWorld rfl
      (by decide),
   ParseNMEA_unknown_type (fun _ => true) "PZAN2,100,10500*32".toList sampleWorld rfl
      (by decide),
   ParseNMEA_unknown_type (fun _ => true) "$PZAN22,100,10500*00".toList sampleWorld rfl
      (by decide)⟩

/-- C4, as the code has it: the spec's sentence `$PZAN3,+,026,321,035,A` is Rejected
and leaves the world unchanged (after the three skipped fields the direction is read
from `035` and the speed from `A`); with the direction and the speed in fields 4 and
5 and the flag `A` in field 6, `$PZAN3,+,026,A,321,035,A` is Handled and appends
exactly one external-wind update, direction 321 degrees and speed 35 km/h converted to
the internal unit (35 / 3.6). -/
theorem PZAN3_new_dialect (verify : List Char → Bool) (w : World)
    (h1 : verify "$PZAN3,+,026,321,035,A*42".toList = true)
    (h2 : verify "$PZAN3,+,026,A,321,035,A*2F".toList = true) :
    ParseNMEA verify "$PZAN3,+,026,321,035,A*42".toList w = (false, w) ∧
    ParseNMEA verify "$PZAN3,+,026,A,321,035,A*2F".toList w =
      (true, w.provide [Provided.ExternalWind ⟨⟨321⟩, 35 / 3.6⟩]) := by
  constructor
  · rw [ParseNMEA_wind verify _ w h1 (by decide)]
    rw [show ParseInteger (field "$PZAN3,+,026,321,035,A*42".toList 5) = none by decide]
    cases ParseInteger (field "$PZAN3,+,026,321,035,A*42".toList 4) <;> rfl
  · rw [ParseNMEA_wind verify _ w h2 (by decide)]
    rw [show ParseInteger (field "$PZAN3,+,026,A,321,035,A*2F".toList 4) = some 321 by decide,
      show ParseInteger (field "$PZAN3,+,026,A,321,035,A*2F".toList 5) = some 35 by decide]
    simp only []
    rw [if_pos (by decide), windUpdate_eq]
    norm_num

theorem PZAN3_new_dialect_witness :
    ParseNMEA (fun _ => true) "$PZAN3,+,026,321,035,A*42".toList sampleWorld
      = (false, sampleWorld) ∧
    ParseNMEA (fun _ => true) "$PZAN3,+,026,A,321,035,A*2F".toList sampleWorld =
      (true, sampleWorld.provide [Provided.ExternalWind ⟨⟨321⟩, 35 / 3.6⟩]) :=
  PZAN3_new_dialect (fun _ => true) sampleWorld rfl rfl

/-- C4, as stated, fails: with a valid checksum, `$PZAN3,+,026,321,035,A` is Rejected
and no wind update is emitted. -/
theorem PZAN3_new_dialect_spec_sentence_rejected :
    ParseNMEA (fun _ => true) "$PZAN3,+,026,321,035,A*42".toList sampleWorld
      = (false, sampleWorld) := by
  decide

/-- C5, as stated, fails: with a valid checksum, `$PZAN3,+,026,321,035,A,321,035,V`
is Rejected at the speed field; no validity flag is read and no update is emitted. -/
theorem PZAN3_legacy_spec_sentence_rejected :
    ParseNMEA (fun _ => true) "$PZAN3,+,026,321,035,A,321,035,V*3E".toList sampleWorld
      = (false, sampleWorld) := by
  decide

/-- C5, as the code has it: the spec's sentence `$PZAN3,+,026,321,035,A,321,035,V` is
Rejected and leaves the world unchanged. The lookahead is taken by a $PZAN3 sentence
with usable direction (field 4) and speed (field 5) whose field 6 starts with `V`:
the second flag is the first character of field 7, and when that is neither `V` nor
`A` the flag is read again from field 9; the sentence is Handled, and the wind update
is appended exactly when the flag so resolved is `A`. -/
theorem PZAN3_lookahead (verify : List Char → Bool) (s : List Char) (w : World)
    (direction speed : Int)
    (hv : verify s = true) (ht : field s 0 = "$PZAN3".toList)
    (hd : ParseInteger (field s 4) = some direction)
    (hs : ParseInteger (field s 5) = some speed)
    (h6 : (field s 6).head? = some 'V') :
    (verify "$PZAN3,+,026,321,035,A,321,035,V*3E".toList = true →
      ParseNMEA verify "$PZAN3,+,026,321,035,A,321,035,V*3E".toList w = (false, w)) ∧
    ParseNMEA verify s w =
      (true,
        if (field s 7).head? = some 'A' ∨
            ((field s 7).head? ≠ some 'V' ∧ (field s 9).head? = some 'A') then
          w.provide [windUpdate direction speed]
        else w) := by
  constructor
  · intro hl
    rw [ParseNMEA_wind verify _ w hl (by decide)]
    rw [show ParseInteger (field "$PZAN3,+,026,321,035,A,321,035,V*3E".toList 5) = none
      by decide]
    cases ParseInteger (field "$PZAN3,+,026,321,035,A,321,035,V*3E".toList 4) <;> rfl
  · rw [ParseNMEA_wind verify s w hv ht, hd, hs, h6]
    simp only [resolvedFlag, if_true]
    by_cases h7V : (field s 7).head? = some 'V'
    · simp [h7V]
    · by_cases h7A : (field s 7).head? = some 'A'
      · simp [h7A]
      · by_cases h9 : (field s 9).head? = some 'A'
        · simp [h7V, h7A, h9]
        · simp [h7V, h7A, h9]

theorem PZAN3_lookahead_witness :
    ParseNMEA (fun _ => true) "$PZAN3,+,026,A,321,035,V,A*55".toList sampleWorld =
      (true, sampleWorld.provide [windUpdate 321 35]) ∧
    ParseNMEA (fun _ => true) "$PZAN3,+,026,A,321,035,V,X,321,A*3D".toList sampleWorld =
      (true, sampleWorld.provide [windUpdate 321 35]) ∧
    ParseNMEA (fun _ => true) "$PZAN3,+,026,A,321,035,V*38".toList sampleWorld =
      (true, sampleWorld) := by
  refine ⟨?_, ?_, ?_⟩
  · have h := (PZAN3_lookahead (fun _ => true) "$PZAN3,+,026,A,321,035,V,A*55".toList
      sampleWorld 321 35 rfl (by decide) (by decide) (by decide) (by decide)).2
    rw [h, if_pos (by decide)]
  · have h := (PZAN3_lookahead (fun _ => true) "$PZAN3,+,026,A,321,035,V,X,321,A*3D".toList
      sampleWorld 321 35 rfl (by decide) (by decide) (by decide) (by decide)).2
    rw [h, if_pos (by decide)]
  · have h := (PZAN3_lookahead (fun _ => true) "$PZAN3,+,026,A,321,035,V*38".toList
      sampleWorld 321 35 rfl (by decide) (by decide) (by decide) (by decide)).2
    rw [h, if_neg (by decide)]

/-- C6: a $PZAN3 sentence with a valid checksum in which the direction field
(field 4) or the speed field (field 5) is absent, empty or not an integer is
Rejected, and the world is returned unchanged: no wind update, no other sink call. -/
theorem PZAN3_required_fields (verify : List Char → Bool) (s : List Char) (w : World)
    (hv : verify s = true) (ht : field s 0 = "$PZAN3".toList)
    (h : (fields s).length ≤ 5 ∨ field s 4 = [] ∨ field s 5 = [] ∨
      ParseInteger (field s 4) = none ∨ ParseInteger (field s 5) = none) :
    ParseNMEA verify s w = (false, w) := by
  have h' : ParseInteger (field s 4) = none ∨ ParseInteger (field s 5) = none := by
    rcases h with h | h | h | h | h
    · right
      rw [field_absent s 5 h]
      rfl
    · left
      rw [h]
      rfl
    · right
      rw [h]
      rfl
    · exact Or.inl h
    · exact Or.inr h
  rw [ParseNMEA_wind verify s w hv ht]
  rcases h' with h4 | h5
  · rw [h4]
  · rw [h5]
    cases ParseInteger (field s 4) <;> rfl

theorem PZAN3_required_fields_witness :
    ParseNMEA (fun _ => true) "$PZAN3,+,026*29".toList sampleWorld = (false, sampleWorld) :=
  PZAN3_required_fields (fun _ => true) "$PZAN3,+,026*29".toList sampleWorld rfl
    (by decide) (Or.inl (by decide))

/-- C7: a $PZAN3 sentence with a valid checksum and usable direction and speed whose
field 6 starts with `V` and whose field 7 starts with `V` is Handled and the world is
returned unchanged (no wind update), whatever the later fields hold. -/
theorem PZAN3_both_invalid (verify : List Char → Bool) (s : List Char) (w : World)
    (direction speed : Int)
    (hv : verify s = true) (ht : field s 0 = "$PZAN3".toList)
    (hd : ParseInteger (field s 4) = some direction)
    (hs : ParseInteger (field s 5) = some speed)
    (h6 : (field s 6).head? = some 'V') (h7 : (field s 7).head? = some 'V') :
    ParseNMEA verify s w = (true, w) := by
  rw [ParseNMEA_wind verify s w hv ht, hd, hs, h6, h7]
  rfl

theorem PZAN3_both_invalid_witness :
    ParseNMEA (fun _ => true) "$PZAN3,+,026,V,321,035,V,V,321,A*24".toList sampleWorld =
      (true, sampleWorld) :=
  PZAN3_both_invalid (fun _ => true) "$PZAN3,+,026,V,321,035,V,V,321,A*24".toList sampleWorld
    321 35 rfl (by decide) (by decide) (by decide) (by decide) (by decide)

/-- C8: a $PZAN2 sentence with a valid checksum whose fields 1 and 2 parse as the
numbers `v` and `raw` is Handled and appends a true-airspeed update of `v` km/h
converted to the internal unit (`v / 3.6`), then a total-energy-vario update of
`(raw - 10000) / 100`, and nothing else. -/
theorem PZAN2_airspeed_vario (verify : List Char → Bool) (s : List Char) (w : World)
    (v raw : Double)
    (hv : verify s = true) (ht : field s 0 = "$PZAN2".toList)
    (h1 : ParseDouble (field s 1) = some v) (h2 : ParseDouble (field s 2) = some raw) :
    ParseNMEA verify s w =
      (true, w.provide [Provided.TrueAirspeed (Units.ToSysUnit v Unit.KILOMETER_PER_HOUR),
        Provided.TotalEnergyVario ((raw - 10000) / 100)]) ∧
    Units.ToSysUnit v Unit.KILOMETER_PER_HOUR = v / 3.6 := by
  refine ⟨?_, ToSysUnit_kmh v⟩
  rw [ParseNMEA_PZAN2 verify s w hv ht, decode_PZAN2, h1, h2]
  rfl

theorem PZAN2_airspeed_vario_witness :
    ParseNMEA (fun _ => true) "$PZAN2,100,10500*32".toList sampleWorld =
      (true, sampleWorld.provide [Provided.TrueAirspeed (100 / 3.6),
        Provided.TotalEnergyVario 5]) := by
  have h1 : ParseDouble (field "$PZAN2,100,10500*32".toList 1) = some 100 := by
    rw [show field "$PZAN2,100,10500*32".toList 1 = "100".toList by decide]
    simp [ParseDouble, ParseFraction, digitsValue]
  have h2 : ParseDouble (field "$PZAN2,100,10500*32".toList 2) = some 10500 := by
    rw [show field "$PZAN2,100,10500*32".toList 2 = "10500".toList by decide]
    simp [ParseDouble, ParseFraction, digitsValue]
  have h := PZAN2_airspeed_vario (fun _ => true) "$PZAN2,100,10500*32".toList sampleWorld
    100 10500 rfl (by decide) h1 h2
  rw [h.1, h.2]
  norm_num

/-- C9: a $PZAN2 sentence with a valid checksum is always Handled; the true-airspeed
update is appended exactly when field 1 parses as a number, and after it the vario
update exactly when field 2 parses as a number, each whatever the other field holds;
when both fields are empty or missing the world is returned unchanged. -/
theorem PZAN2_optional_fields (verify : List Char → Bool) (s : List Char) (w : World)
    (hv : verify s = true) (ht : field s 0 = "$PZAN2".toList) :
    (∃ us : List Provided,
      ParseNMEA verify s w = (true, w.provide us) ∧
      us =
        (match ParseDouble (field s 1) with
          | some v => [Provided.TrueAirspeed (Units.ToSysUnit v Unit.KILOMETER_PER_HOUR)]
          | none => []) ++
        (match ParseDouble (field s 2) with
          | some raw => [Provided.TotalEnergyVario ((raw - 10000) / 100)]
          | none => []) ∧
      ((∃ x, Provided.TrueAirspeed x ∈ us) ↔ ParseDouble (field s 1) ≠ none) ∧
      ((∃ x, Provided.TotalEnergyVario x ∈ us) ↔ ParseDouble (field s 2) ≠ none)) ∧
    (field s 1 = [] → field s 2 = [] → ParseNMEA verify s w = (true, w)) ∧
    ((fields s).length ≤ 1 → ParseNMEA verify s w = (true, w)) := by
  have key : ParseNMEA verify s w =
      (true, w.provide
        ((match ParseDouble (field s 1) with
          | some v => [Provided.TrueAirspeed (Units.ToSysUnit v Unit.KILOMETER_PER_HOUR)]
          | none => []) ++
         (match ParseDouble (field s 2) with
          | some raw => [Provided.TotalEnergyVario ((raw - 10000) / 100)]
          | none => []))) := by
    rw [ParseNMEA_PZAN2 verify s w hv ht, decode_PZAN2]
    cases ParseDouble (field s 1) <;> cases ParseDouble (field s 2) <;> rfl
  have empty : field s 1 = [] → field s 2 = [] → ParseNMEA verify s w = (true, w) := by
    intro e1 e2
    rw [key, e1, e2]
    simp [ParseDouble, provide_nil]
  refine ⟨⟨_, key, rfl, ?_, ?_⟩, empty, ?_⟩
  · cases ParseDouble (field s 1) <;> cases ParseDouble (field s 2) <;> simp
  · cases ParseDouble (field s 1) <;> cases ParseDouble (field s 2) <;> simp
  · intro hlen
    exact empty (field_absent s 1 hlen) (field_absent s 2 (by omega))

theorem PZAN2_optional_fields_witness :
    ParseNMEA (fun _ => true) "$PZAN2,,*37".toList sampleWorld = (true, sampleWorld) ∧
    ParseNMEA (fun _ => true) "$PZAN2*37".toList sampleWorld = (true, sampleWorld) :=
  ⟨(PZAN2_optional_fields (fun _ => true) "$PZAN2,,*37".toList sampleWorld rfl
      (by decide)).2.1 (by decide) (by decide),
   (PZAN2_optional_fields (fun _ => true) "$PZAN2*37".toList sampleWorld rfl
      (by decide)).2.2 (by decide)⟩

/-- C10: a $SOARIM sentence with a valid checksum whose text before the checksum
marker is `$SOARIM,` followed by `text`, with `text` ASCII and shorter than the
256-slot buffer, is Handled and appends exactly one message, `text` verbatim (commas
included), to the notification queue; the flight state is unchanged. -/
theorem SOARIM_message (verify : List Char → Bool) (s : List Char) (w : World)
    (text : List Char)
    (hv : verify s = true) (hp : payload s = "$SOARIM,".toList ++ text)
    (hascii : ∀ c ∈ text, c.toNat < 128) (hlen : text.length < 256) :
    ParseNMEA verify s w = (true, ⟨w.info, w.messages ++ [text]⟩) := by
  have ht : field s 0 = "$SOARIM".toList := by
    show (splitFields (payload s)).getD 0 [] = _
    rw [splitFields_eq, hp]
    rfl
  have hr : (cursor s 1).Rest = text := by
    show (((payload s).dropWhile (fun c => c ≠ ',')).tail) = text
    rw [hp]
    rfl
  rw [ParseNMEA_SOARIM verify s w hv ht, hr, SetASCII_of_ascii text hascii hlen]
  rfl

theorem SOARIM_message_witness :
    ParseNMEA (fun _ => true) "$SOARIM,hello world*07".toList sampleWorld =
      (true, ⟨sampleWorld.info, sampleWorld.messages ++ ["hello world".toList]⟩) ∧
    ParseNMEA (fun _ => true) "$SOARIM,thermal ahead, turn left*2F".toList sampleWorld =
      (true, ⟨sampleWorld.info,
        sampleWorld.messages ++ ["thermal ahead, turn left".toList]⟩) :=
  ⟨SOARIM_message (fun _ => true) "$SOARIM,hello world*07".toList sampleWorld
      "hello world".toList rfl (by decide) (by decide) (by decide),
   SOARIM_message (fun _ => true) "$SOARIM,thermal ahead, turn left*2F".toList sampleWorld
      "thermal ahead, turn left".toList rfl (by decide) (by decide) (by decide)⟩

/-- C11: a $PZAN4 sentence with a valid checksum is always Handled; when field 1
parses as the number `mc` the settings sink receives exactly one MacCready value,
`mc` unchanged, paired with the clock of the flight state, and nothing else changes;
when field 1 is absent or does not parse the world is returned unchanged. -/
theorem PZAN4_mac_cready (verify : List Char → Bool) (s : List Char) (w : World)
    (hv : verify s = true) (ht : field s 0 = "$PZAN4".toList) :
    ParseNMEA verify s w =
      (true,
        match ParseDouble (field s 1) with
        | some mc =>
          ⟨{ w.info with
              settings := ⟨w.info.settings.mac_cready ++ [(mc, w.info.clock)]⟩ },
            w.messages⟩
        | none => w) ∧
    ((fields s).length ≤ 1 → ParseNMEA verify s w = (true, w)) := by
  have key := (ParseNMEA_PZAN4 verify s w hv ht).trans (decode_PZAN4 w s)
  refine ⟨key, ?_⟩
  intro hlen
  rw [key, field_absent s 1 hlen]
  rfl

theorem PZAN4_mac_cready_witness :
    ParseNMEA (fun _ => true) "$PZAN4,1.5*37".toList sampleWorld =
      (true, ⟨{ sampleWorld.info with settings := ⟨[(1, 3), (1.5, 12)]⟩ },
        sampleWorld.messages⟩) ∧
    ParseNMEA (fun _ => true) "$PZAN4,fast*1D".toList sampleWorld = (true, sampleWorld) ∧
    ParseNMEA (fun _ => true) "$PZAN4*31".toList sampleWorld = (true, sampleWorld) := by
  refine ⟨?_, ?_, ?_⟩
  · have h1 : ParseDouble (field "$PZAN4,1.5*37".toList 1) = some 1.5 := by
      rw [show field "$PZAN4,1.5*37".toList 1 = "1.5".toList by decide]
      simp [ParseDouble, ParseFraction, digitsValue]
      norm_num
    rw [(PZAN4_mac_cready (fun _ => true) "$PZAN4,1.5*37".toList sampleWorld rfl
      (by decide)).1, h1]
    rfl
  · rw [(PZAN4_mac_cready (fun _ => true) "$PZAN4,fast*1D".toList sampleWorld rfl
      (by decide)).1]
    rw [show ParseDouble (field "$PZAN4,fast*1D".toList 1) = none by decide]
  · exact (PZAN4_mac_cready (fun _ => true) "$PZAN4*31".toList sampleWorld rfl
      (by decide)).2 (by decide)

/-- C12: a $PZAN5 sentence with a valid checksum is always Handled and overwrites the
flight mode: Cruise when field 1 is exactly `SF`, Circling when it is exactly `VA`,
Unknown for any other content (empty or missing included); nothing else changes. -/
theorem PZAN5_flight_mode (verify : List Char → Bool) (s : List Char) (w : World)
    (hv : verify s = true) (ht : field s 0 = "$PZAN5".toList) :
    ParseNMEA verify s w =
      (true,
        ⟨{ w.info with
            switch_state := { w.info.switch_state with
              flight_mode :=
                if field s 1 = "SF".toList then SwitchState.FlightMode.CRUISE
                else if field s 1 = "VA".toList then SwitchState.FlightMode.CIRCLING
                else SwitchState.FlightMode.UNKNOWN } },
          w.messages⟩) :=
  (ParseNMEA_PZAN5 verify s w hv ht).trans (decode_PZAN5 w s)

theorem PZAN5_flight_mode_witness :
    (ParseNMEA (fun _ => true) "$PZAN5,SF,MUEHL,123.4,KM,T,234*31".toList
      sampleWorld).2.info.switch_state.flight_mode = SwitchState.FlightMode.CRUISE ∧
    (ParseNMEA (fun _ => true) "$PZAN5,VA,MUEHL,123.4,KM,T,234*33".toList
      sampleWorld).2.info.switch_state.flight_mode = SwitchState.FlightMode.CIRCLING ∧
    (ParseNMEA (fun _ => true) "$PZAN5,XX,MUEHL*69".toList
      sampleWorld).2.info.switch_state.flight_mode = SwitchState.FlightMode.UNKNOWN ∧
    (ParseNMEA (fun _ => true) "$PZAN5,sf*09".toList
      sampleWorld).2.info.switch_state.flight_mode = SwitchState.FlightMode.UNKNOWN ∧
    (ParseNMEA (fun _ => true) "$PZAN5,SFX*51".toList
      sampleWorld).2.info.switch_state.flight_mode = SwitchState.FlightMode.UNKNOWN ∧
    (ParseNMEA (fun _ => true) "$PZAN5*30".toList
      sampleWorld).2.info.switch_state.flight_mode = SwitchState.FlightMode.UNKNOWN := by
  refine ⟨?_, ?_, ?_, ?_, ?_, ?_⟩
  · rw [PZAN5_flight_mode (fun _ => true) _ sampleWorld rfl (by decide)]
    decide
  · rw [PZAN5_flight_mode (fun _ => true) _ sampleWorld rfl (by decide)]
    decide
  · rw [PZAN5_flight_mode (fun _ => true) _ sampleWorld rfl (by decide)]
    decide
  · rw [PZAN5_flight_mode (fun _ => true) _ sampleWorld rfl (by decide)]
    decide
  · rw [PZAN5_flight_mode (fun _ => true) _ sampleWorld rfl (by decide)]
    decide
  · rw [PZAN5_flight_mode (fun _ => true) _ sampleWorld rfl (by decide)]
    decide

/-- C13: for every validator, sentence and clock value there are one outcome and one
effect (the sequence of sink calls) such that, from every world with that clock,
running the dispatcher gives that outcome and applies that effect, and running it
again on the resulting world gives the same outcome and applies the same effect once
more: the second run does not depend on the first. -/
theorem ParseNMEA_stateless (verify : List Char → Bool) (s : List Char) (clock : Double) :
    ∃ (handled : Bool) (e : Effect), ∀ w : World, w.info.clock = clock →
      ParseNMEA verify s w = (handled, w.apply e) ∧
      ParseNMEA verify s (ParseNMEA verify s w).2 = (handled, (w.apply e).apply e) := by
  obtain ⟨handled, e, h⟩ := ParseNMEA_effect verify s clock
  refine ⟨handled, e, fun w hc => ⟨h w hc, ?_⟩⟩
  rw [h w hc]
  exact h (w.apply e) hc

theorem ParseNMEA_stateless_witness :
    ∃ (handled : Bool) (e : Effect),
      ParseNMEA (fun _ => true) "$PZAN4,1.5*37".toList sampleWorld =
        (handled, sampleWorld.apply e) ∧
      ParseNMEA (fun _ => true) "$PZAN4,1.5*37".toList
          (ParseNMEA (fun _ => true) "$PZAN4,1.5*37".toList sampleWorld).2 =
        (handled, (sampleWorld.apply e).apply e) := by
  obtain ⟨handled, e, h⟩ := ParseNMEA_stateless (fun _ => true) "$PZAN4,1.5*37".toList 12
  exact ⟨handled, e, h sampleWorld rfl⟩

/-- C14: for a $PZAN3 sentence with a valid checksum and usable direction and speed,
with `c6`, `c7`, `c9` the first characters of fields 6, 7 and 9 (`none` when the
field is missing or empty), the outcome is Handled, and exactly one wind update is
appended when `c6 = A`, or `c6 = V` and `c7 = A`, or `c6 = V`, `c7` is neither `V`
nor `A`, and `c9 = A`; in every other case the world is unchanged. Field 8 does not
occur in the condition. -/
theorem PZAN3_validity_flag (verify : List Char → Bool) (s : List Char) (w : World)
    (direction speed : Int)
    (hv : verify s = true) (ht : field s 0 = "$PZAN3".toList)
    (hd : ParseInteger (field s 4) = some direction)
    (hs : ParseInteger (field s 5) = some speed) :
    ParseNMEA verify s w =
      (true,
        if (field s 6).head? = some 'A' ∨
            ((field s 6).head? = some 'V' ∧ (field s 7).head? = some 'A') ∨
            ((field s 6).head? = some 'V' ∧ (field s 7).head? ≠ some 'V' ∧
              (field s 7).head? ≠ some 'A' ∧ (field s 9).head? = some 'A') then
          w.provide [windUpdate direction speed]
        else w) := by
  rw [ParseNMEA_wind verify s w hv ht, hd, hs]
  simp only [resolvedFlag]
  by_cases h6V : (field s 6).head? = some 'V'
  · have h6A : (field s 6).head? ≠ some 'A' := by rw [h6V]; decide
    by_cases h7V : (field s 7).head? = some 'V'
    · simp [h6V, h7V]
    · by_cases h7A : (field s 7).head? = some 'A'
      · simp [h6V, h7A]
      · by_cases h9 : (field s 9).head? = some 'A'
        · simp [h6V, h7V, h7A, h9]
        · simp [h6V, h7V, h7A, h9]
  · by_cases h6A : (field s 6).head? = some 'A'
    · simp [h6A]
    · simp [h6V, h6A]

theorem PZAN3_validity_flag_witness :
    ParseNMEA (fun _ => true) "$PZAN3,+,026,A,321,035,V,?,V,A*3C".toList sampleWorld =
      (true, sampleWorld.provide [windUpdate 321 35]) ∧
    ParseNMEA (fun _ => true) "$PZAN3,+,026,A,321,035,B*2C".toList sampleWorld =
      (true, sampleWorld) := by
  constructor
  · rw [PZAN3_validity_flag (fun _ => true) "$PZAN3,+,026,A,321,035,V,?,V,A*3C".toList
      sampleWorld 321 35 rfl (by decide) (by decide) (by decide), if_pos (by decide)]
  · rw [PZAN3_validity_flag (fun _ => true) "$PZAN3,+,026,A,321,035,B*2C".toList
      sampleWorld 321 35 rfl (by decide) (by decide) (by decide), if_neg (by decide)]

/-- C15: whenever a $PZAN3 sentence with a valid checksum changes the world, fields 4
and 5 parse as integers `direction` and `speed`, and the change is exactly one wind
update whose direction is `direction` degrees and whose speed is `speed` km/h
converted to the internal unit; fields 1 to 3 are not inspected. For the layouts of
the source comment: the old `$PZAN3,+,026,V,321,035,A,321,035,V` and the new
`$PZAN3,+,026,A,321,035,V,A` append the update for 321 degrees and 35 km/h, and the
new layout without the trailing `,A` appends nothing (and is Handled). -/
theorem PZAN3_wind_value (verify : List Char → Bool) (s : List Char) (w : World) :
    (verify s = true → field s 0 = "$PZAN3".toList → (ParseNMEA verify s w).2 ≠ w →
      ∃ direction speed : Int,
        ParseInteger (field s 4) = some direction ∧
        ParseInteger (field s 5) = some speed ∧
        ParseNMEA verify s w =
          (true, w.provide [Provided.ExternalWind
            ⟨⟨(direction : ℚ)⟩, (speed : ℚ) / 3.6⟩])) ∧
    (verify "$PZAN3,+,026,V,321,035,A,321,035,V*44".toList = true →
      ParseNMEA verify "$PZAN3,+,026,V,321,035,A,321,035,V*44".toList w =
        (true, w.provide [Provided.ExternalWind ⟨⟨321⟩, 35 / 3.6⟩])) ∧
    (verify "$PZAN3,+,026,A,321,035,V,A*55".toList = true →
      ParseNMEA verify "$PZAN3,+,026,A,321,035,V,A*55".toList w =
        (true, w.provide [Provided.ExternalWind ⟨⟨321⟩, 35 / 3.6⟩])) ∧
    (verify "$PZAN3,+,026,A,321,035,V*38".toList = true →
      ParseNMEA verify "$PZAN3,+,026,A,321,035,V*38".toList w = (true, w)) := by
  refine ⟨?_, ?_, ?_, ?_⟩
  · intro hv ht hw
    rw [ParseNMEA_wind verify s w hv ht] at hw ⊢
    cases h4 : ParseInteger (field s 4) with
    | none =>
      rw [h4] at hw
      exact absurd rfl hw
    | some d =>
      cases h5 : ParseInteger (field s 5) with
      | none =>
        rw [h4, h5] at hw
        exact absurd rfl hw
      | some v =>
        rw [h4, h5] at hw
        refine ⟨d, v, rfl, rfl, ?_⟩
        simp only [] at hw ⊢
        split
        · rw [windUpdate_eq]
        · rename_i hflag
          rw [if_neg hflag] at hw
          exact absurd rfl hw
  · intro h
    rw [ParseNMEA_wind verify _ w h (by decide),
      show ParseInteger (field "$PZAN3,+,026,V,321,035,A,321,035,V*44".toList 4) = some 321
        by decide,
      show ParseInteger (field "$PZAN3,+,026,V,321,035,A,321,035,V*44".toList 5) = some 35
        by decide]
    simp only []
    rw [if_pos (by decide), windUpdate_eq]
    norm_num
  · intro h
    rw [ParseNMEA_wind verify _ w h (by decide),
      show ParseInteger (field "$PZAN3,+,026,A,321,035,V,A*55".toList 4) = some 321
        by decide,
      show ParseInteger (field "$PZAN3,+,026,A,321,035,V,A*55".toList 5) = some 35
        by decide]
    simp only []
    rw [if_pos (by decide), windUpdate_eq]
    norm_num
  · intro h
    rw [ParseNMEA_wind verify _ w h (by decide),
      show ParseInteger (field "$PZAN3,+,026,A,321,035,V*38".toList 4) = some 321
        by decide,
      show ParseInteger (field "$PZAN3,+,026,A,321,035,V*38".toList 5) = some 35
        by decide]
    simp only []
    rw [if_neg (by decide)]

theorem PZAN3_wind_value_witness :
    ∃ direction speed : Int,
      ParseInteger (field "$PZAN3,x,y,z,321,035,V,?,A,A*0E".toList 4) = some direction ∧
      ParseInteger (field "$PZAN3,x,y,z,321,035,V,?,A,A*0E".toList 5) = some speed ∧
      ParseNMEA (fun _ => true) "$PZAN3,x,y,z,321,035,V,?,A,A*0E".toList sampleWorld =
        (true, sampleWorld.provide [Provided.ExternalWind
          ⟨⟨(direction : ℚ)⟩, (speed : ℚ) / 3.6⟩]) := by
  have hrun : ParseNMEA (fun _ => true) "$PZAN3,x,y,z,321,035,V,?,A,A*0E".toList sampleWorld =
      (true, sampleWorld.provide [windUpdate 321 35]) := by
    rw [ParseNMEA_wind (fun _ => true) _ sampleWorld rfl (by decide),
      show ParseInteger (field "$PZAN3,x,y,z,321,035,V,?,A,A*0E".toList 4) = some 321
        by decide,
      show ParseInteger (field "$PZAN3,x,y,z,321,035,V,?,A,A*0E".toList 5) = some 35
        by decide]
    simp only []
    rw [if_pos (by decide)]
  exact (PZAN3_wind_value (fun _ => true) "$PZAN3,x,y,z,321,035,V,?,A,A*0E".toList
    sampleWorld).1 rfl (by decide) (by rw [hrun]; exact provide_ne _ _)

/-- C17: for a $PZAN2 sentence with a valid checksum, the vario updates among the
updates of the run are given by field 2 alone: one update of `(raw - 10000) / 100`
when field 2 parses as `raw`, none otherwise, whatever field 1 holds; so two such
sentences with the same field 2 yield the same vario updates, from any worlds. -/
theorem PZAN2_vario_aligned (verify : List Char → Bool) (s : List Char) (w : World)
    (hv : verify s = true) (ht : field s 0 = "$PZAN2".toList) :
    ((newUpdates w (ParseNMEA verify s w).2).filter Provided.isVario =
      match ParseDouble (field s 2) with
      | some raw => [Provided.TotalEnergyVario ((raw - 10000) / 100)]
      | none => []) ∧
    (∀ (t : List Char) (v : World), verify t = true → field t 0 = "$PZAN2".toList →
      field t 2 = field s 2 →
      (newUpdates v (ParseNMEA verify t v).2).filter Provided.isVario =
        (newUpdates w (ParseNMEA verify s w).2).filter Provided.isVario) := by
  refine ⟨vario_of_PZAN2 verify s w hv ht, ?_⟩
  intro t v hvt htt h2
  rw [vario_of_PZAN2 verify s w hv ht, vario_of_PZAN2 verify t v hvt htt, h2]

theorem PZAN2_vario_aligned_witness :
    (newUpdates sampleWorld
        (ParseNMEA (fun _ => true) "$PZAN2,abc,10500*63".toList sampleWorld).2).filter
      Provided.isVario = [Provided.TotalEnergyVario 5] ∧
    ParseNMEA (fun _ => true) "$PZAN2,abc,10500*63".toList sampleWorld =
      (true, sampleWorld.provide [Provided.TotalEnergyVario 5]) := by
  have h1 : ParseDouble (field "$PZAN2,abc,10500*63".toList 1) = none := by decide
  have h2 : ParseDouble (field "$PZAN2,abc,10500*63".toList 2) = some 10500 := by
    rw [show field "$PZAN2,abc,10500*63".toList 2 = "10500".toList by decide]
    simp [ParseDouble, ParseFraction, digitsValue]
  constructor
  · rw [(PZAN2_vario_aligned (fun _ => true) "$PZAN2,abc,10500*63".toList sampleWorld rfl
      (by decide)).1, h2]
    norm_num
  · rw [ParseNMEA_PZAN2 (fun _ => true) _ sampleWorld rfl (by decide), decode_PZAN2, h1, h2]
    norm_num

/-- C18: for a line with a valid checksum that is Handled, the sink calls are those of
the matched type only. $SOARIM: one message appended, flight state unchanged. $PZAN2:
at most one true-airspeed update followed by at most one vario update appended,
nothing else changed. $PZAN3: at most one external-wind update appended, nothing else
changed. $PZAN4: at most one MacCready value appended to the settings sink, nothing
else changed. $PZAN5: the flight mode of the switch state written, every other part
of the flight state and the message queue unchanged. -/
theorem ParseNMEA_frame (verify : List Char → Bool) (s : List Char) (w : World)
    (hv : verify s = true) (hh : (ParseNMEA verify s w).1 = true) :
    (field s 0 = "$SOARIM".toList →
      ∃ msg, ParseNMEA verify s w = (true, ⟨w.info, w.messages ++ [msg]⟩)) ∧
    (field s 0 = "$PZAN2".toList →
      ∃ tas vario : List Provided,
        tas.length ≤ 1 ∧ vario.length ≤ 1 ∧
        (∀ u ∈ tas, ∃ x, u = Provided.TrueAirspeed x) ∧
        (∀ u ∈ vario, ∃ x, u = Provided.TotalEnergyVario x) ∧
        ParseNMEA verify s w =
          (true, ⟨{ w.info with provided := w.info.provided ++ (tas ++ vario) },
            w.messages⟩)) ∧
    (field s 0 = "$PZAN3".toList →
      ∃ wind : List Provided,
        wind.length ≤ 1 ∧ (∀ u ∈ wind, ∃ x, u = Provided.ExternalWind x) ∧
        ParseNMEA verify s w =
          (true, ⟨{ w.info with provided := w.info.provided ++ wind }, w.messages⟩)) ∧
    (field s 0 = "$PZAN4".toList →
      ∃ mcs : List (Double × Double),
        mcs.length ≤ 1 ∧
        ParseNMEA verify s w =
          (true, ⟨{ w.info with settings := ⟨w.info.settings.mac_cready ++ mcs⟩ },
            w.messages⟩)) ∧
    (field s 0 = "$PZAN5".toList →
      ∃ mode : SwitchState.FlightMode,
        ParseNMEA verify s w =
          (true, ⟨{ w.info with
            switch_state := { w.info.switch_state with flight_mode := mode } },
            w.messages⟩)) := by
  refine ⟨?_, ?_, ?_, ?_, ?_⟩
  · intro ht
    exact ⟨_, ParseNMEA_SOARIM verify s w hv ht⟩
  · intro ht
    refine ⟨((ParseDouble (field s 1)).map (fun vtas =>
        Provided.TrueAirspeed (Units.ToSysUnit vtas Unit.KILOMETER_PER_HOUR))).toList,
      ((ParseDouble (field s 2)).map (fun wnet =>
        Provided.TotalEnergyVario ((wnet - 10000) / 100))).toList, ?_, ?_, ?_, ?_, ?_⟩
    · cases ParseDouble (field s 1) <;> simp
    · cases ParseDouble (field s 2) <;> simp
    · cases ParseDouble (field s 1) <;> simp
    · cases ParseDouble (field s 2) <;> simp
    · rw [ParseNMEA_PZAN2 verify s w hv ht, decode_PZAN2]
      rfl
  · intro ht
    rw [ParseNMEA_wind verify s w hv ht] at hh ⊢
    cases h4 : ParseInteger (field s 4) with
    | none =>
      rw [h4] at hh
      simp at hh
    | some d =>
      cases h5 : ParseInteger (field s 5) with
      | none =>
        rw [h4, h5] at hh
        simp at hh
      | some v =>
        simp only []
        split
        · exact ⟨[windUpdate d v], by simp, by simp [windUpdate], rfl⟩
        · refine ⟨[], by simp, by simp, ?_⟩
          cases w with
          | mk info messages =>
            cases info
            simp
  · intro ht
    rw [ParseNMEA_PZAN4 verify s w hv ht, decode_PZAN4]
    cases ParseDouble (field s 1) with
    | none =>
      refine ⟨[], by simp, ?_⟩
      cases w with
      | mk info messages =>
        cases info
        simp
    | some mc => exact ⟨[(mc, w.info.clock)], by simp, rfl⟩
  · intro ht
    exact ⟨_, (ParseNMEA_PZAN5 verify s w hv ht).trans (decode_PZAN5 w s)⟩

theorem ParseNMEA_frame_witness :
    ∃ mode : SwitchState.FlightMode,
      ParseNMEA (fun _ => true) "$PZAN5,VA,MUEHL,123.4,KM,T,234*33".toList sampleWorld =
        (true, ⟨{ sampleWorld.info with
          switch_state := { sampleWorld.info.switch_state with flight_mode := mode } },
          sampleWorld.messages⟩) :=
  (ParseNMEA_frame (fun _ => true) "$PZAN5,VA,MUEHL,123.4,KM,T,234*33".toList sampleWorld
    rfl (by decide)).2.2.2.2 (by decide)

end Soaribox
